import Mathlib

/-!
Verification of the sensitivity scenario orchestrator of `src/src/App.tsx`
(the `runSensitivity` function and the surrounding React component state).

Numbers are modelled as exact rationals: every value a user can type into
the form is a finite decimal, and on such values exact rational arithmetic
agrees digit for digit with the JavaScript double arithmetic and the two
serialization routines (`toFixed(4)` and default number-to-string) that the
component uses.  Strings are modelled as Lean strings; substring search is
done on the underlying character lists so that all predicates evaluate by
kernel reduction.
-/

/-- A JavaScript value as it can appear in one field of a parsed JSON stats
point: a number, a string, a boolean, `null`, or `undefined` (absent). -/
inductive JsValue where
  | num (q : ℚ)
  | str (s : String)
  | jsBool (b : Bool)
  | null
  | undef
deriving DecidableEq

/-- Whether a `JsValue` is a number. -/
def isNumeric : JsValue → Bool
  | JsValue.num _ => true
  | _ => false

/-- The model selector of the form: `'gbm' | 'ou'` (App.tsx line 30). -/
inductive ModelType where
  | gbm
  | ou
deriving DecidableEq

/-- The `model` query value for each variant (App.tsx line 87). -/
def modelParam : ModelType → String
  | ModelType.gbm => "gbm"
  | ModelType.ou => "ou"

/-- The shocked-parameter selector of the form: `'spot' | 'vol'`
(App.tsx line 49). -/
inductive ShockParam where
  | spot
  | vol
deriving DecidableEq

/-- The component state read by `runSensitivity`: one field per `useState`
numeric or enum value of App.tsx lines 30-50. -/
structure AppState where
  modelType : ModelType
  maturity : ℚ
  r_dom : ℚ
  r_for : ℚ
  gbmSpot : ℚ
  gbmSigma : ℚ
  gbmMu : ℚ
  ouSpot : ℚ
  ouKappa : ℚ
  ouTheta : ℚ
  ouSigma : ℚ
  shockParam : ShockParam
  shiftPct : ℕ
deriving DecidableEq

/-- The initial values of the `useState` hooks (App.tsx lines 30-50). -/
def defaultState : AppState where
  modelType := ModelType.gbm
  maturity := 1
  r_dom := 3/100
  r_for := 1/100
  gbmSpot := 11/10
  gbmSigma := 15/100
  gbmMu := 5/100
  ouSpot := 11/10
  ouKappa := 3
  ouTheta := 11/10
  ouSigma := 12/100
  shockParam := ShockParam.spot
  shiftPct := 20

/-- Decimal digits of the fractional part `x ∈ [0, 1)` of a rational, most
significant first, stopping when the remainder reaches zero.  The fuel bound
of the caller covers every terminating decimal a form field can hold. -/
def fracDigits : ℕ → ℚ → String
  | 0, _ => ""
  | n + 1, x =>
    let y := x * 10
    let d := (Rat.floor y).toNat
    let r := y - (Rat.floor y : ℚ)
    if r = 0 then toString d else toString d ++ fracDigits n r

/-- Decimal form of a non-negative terminating rational: integer part, and
the fractional digits with no trailing zeros; an integral value prints with
no dot. -/
def jsNumToStringAbs (x : ℚ) : String :=
  let i := (Rat.floor x).toNat
  let f := x - (Rat.floor x : ℚ)
  if f = 0 then toString i else toString i ++ "." ++ fracDigits 40 f

/-- JavaScript default number-to-string (template interpolation `${x}`),
restricted to terminating decimals: sign, integer part, and the fractional
digits with no trailing zeros (`3` prints as "3", `1.10` as "1.1", `0.03`
as "0.03"). -/
def jsNumToString (q : ℚ) : String :=
  if q < 0 then "-" ++ jsNumToStringAbs (-q) else jsNumToStringAbs q

/-- A natural number printed in decimal and left-padded with zeros to 4
digits: the fractional block of `toFixed(4)`. -/
def pad4 (m : ℕ) : String :=
  let s := toString m
  String.mk (List.replicate (4 - s.length) '0') ++ s

/-- Fixed 4-decimal form of a non-negative rational: the value rounded to
the nearest multiple of `1/10^4` (ties up), printed with exactly four
fractional digits. -/
def toFixed4Abs (x : ℚ) : String :=
  let n := (Rat.floor (x * 10000 + 1/2)).toNat
  toString (n / 10000) ++ "." ++ pad4 (n % 10000)

/-- JavaScript `Number.prototype.toFixed(4)`: the sign, then the magnitude
rounded to the nearest multiple of `1/10^4` (ties away from zero), printed
with exactly four fractional digits. -/
def toFixed4 (q : ℚ) : String :=
  if q < 0 then "-" ++ toFixed4Abs (-q) else toFixed4Abs q

/-- The `shiftFactors` array of App.tsx lines 66-70, as a function of the
selected percentage. -/
def shiftFactors (pct : ℕ) : List ℚ :=
  [1 - (pct : ℚ)/100, 1, 1 + (pct : ℚ)/100]

/-- The `scenarioLabels` array of App.tsx lines 72-76. -/
def scenarioLabels (pct : ℕ) : List String :=
  ["Down -" ++ toString pct ++ "%", "Base 0%", "Up +" ++ toString pct ++ "%"]

/-- The loop's read `shiftFactors[i]`, indexed form. -/
def shiftFactorAt (pct : ℕ) : Fin 3 → ℚ
  | 0 => 1 - (pct : ℚ)/100
  | 1 => 1
  | 2 => 1 + (pct : ℚ)/100

/-- The loop's read `scenarioLabels[i]`, indexed form. -/
def scenarioLabelAt (pct : ℕ) : Fin 3 → String
  | 0 => "Down -" ++ toString pct ++ "%"
  | 1 => "Base 0%"
  | 2 => "Up +" ++ toString pct ++ "%"

theorem shiftFactorAt_get (pct : ℕ) (i : Fin 3) :
    shiftFactorAt pct i = (shiftFactors pct).get ⟨i.val, i.isLt⟩ := by
  fin_cases i <;> rfl

theorem scenarioLabelAt_get (pct : ℕ) (i : Fin 3) :
    scenarioLabelAt pct i = (scenarioLabels pct).get ⟨i.val, i.isLt⟩ := by
  fin_cases i <;> rfl

/-- `baseSpot` of App.tsx line 63. -/
def baseSpot (st : AppState) : ℚ :=
  if st.modelType = ModelType.gbm then st.gbmSpot else st.ouSpot

/-- `baseVol` of App.tsx line 64. -/
def baseVol (st : AppState) : ℚ :=
  if st.modelType = ModelType.gbm then st.gbmSigma else st.ouSigma

/-- `currentSpot` of App.tsx line 83. -/
def effSpot (st : AppState) (factor : ℚ) : ℚ :=
  if st.shockParam = ShockParam.spot then baseSpot st * factor else baseSpot st

/-- `currentVol` of App.tsx line 84. -/
def effVol (st : AppState) (factor : ℚ) : ℚ :=
  if st.shockParam = ShockParam.vol then baseVol st * factor else baseVol st

/-- The ordered `key=value` query components of the request URL built in
App.tsx lines 86-94, with each value serialized exactly as the code does:
`spot` and the volatility through `toFixed(4)`, every other number through
default interpolation. -/
def queryComponents (st : AppState) (factor : ℚ) : List (String × String) :=
  [("model", modelParam st.modelType),
   ("paths", "200"),
   ("steps", "200"),
   ("maturity", jsNumToString st.maturity),
   ("r_dom", jsNumToString st.r_dom),
   ("r_for", jsNumToString st.r_for),
   ("spot", toFixed4 (effSpot st factor))] ++
  (match st.modelType with
   | ModelType.gbm => [("sigma_gbm", toFixed4 (effVol st factor))]
   | ModelType.ou =>
       [("sigma_ou", toFixed4 (effVol st factor)),
        ("kappa", jsNumToString st.ouKappa),
        ("theta", jsNumToString st.ouTheta)])

/-- The request URL of App.tsx lines 86-94: the concatenation the code
builds is the base, the path, `?`, and the components joined by `&`. -/
def requestUrl (apiBase : String) (st : AppState) (factor : ℚ) : String :=
  apiBase ++ "/api/simulation/fx-forward-paths?" ++
    String.intercalate "&" ((queryComponents st factor).map (fun p => p.1 ++ "=" ++ p.2))

/-- The three request URLs a full run issues, in scenario order. -/
def runUrls (apiBase : String) (st : AppState) : List String :=
  (shiftFactors st.shiftPct).map (requestUrl apiBase st)

/-- The named numeric model-parameter fields serialized for the active
variant, at given effective spot and volatility: `spot, sigma` for GBM,
`spot, sigma, kappa, theta` for OU (App.tsx lines 88-94). -/
def modelFields (st : AppState) (spotVal volVal : ℚ) : List (String × ℚ) :=
  match st.modelType with
  | ModelType.gbm => [("spot", spotVal), ("sigma", volVal)]
  | ModelType.ou =>
      [("spot", spotVal), ("sigma", volVal), ("kappa", st.ouKappa), ("theta", st.ouTheta)]

/-- The effective parameters of one scenario. -/
def effectiveFields (st : AppState) (factor : ℚ) : List (String × ℚ) :=
  modelFields st (effSpot st factor) (effVol st factor)

/-- The base (unshocked) parameters. -/
def baseFields (st : AppState) : List (String × ℚ) :=
  modelFields st (baseSpot st) (baseVol st)

/-- How many positions of two parallel field lists hold different values. -/
def countDiff : List (String × ℚ) → List (String × ℚ) → ℕ
  | (_, a) :: xs, (_, b) :: ys => (if a = b then 0 else 1) + countDiff xs ys
  | _, _ => 0

/-- One raw stats point of a response body: the four fields the interface
`StatsPoint` of App.tsx lines 15-21 names, before tagging. -/
structure RawPoint where
  time : JsValue
  mean : JsValue
  p5 : JsValue
  p95 : JsValue
deriving DecidableEq

/-- A stats point after the spread `{...p, scenario: label}` of App.tsx
lines 102-110. -/
structure TaggedPoint where
  time : JsValue
  mean : JsValue
  p5 : JsValue
  p95 : JsValue
  scenario : String
deriving DecidableEq

/-- The spread `{...p, scenario: label}`. -/
def tagPoint (label : String) (p : RawPoint) : TaggedPoint :=
  { time := p.time, mean := p.mean, p5 := p.p5, p95 := p.p95, scenario := label }

/-- The part of a parsed response body the code touches: `data.underlyingStats`
and `data.pvStats`, each either an array of points or `none` when the member
is absent or not an array (so that `.map` would throw). -/
structure RespBody where
  underlyingStats : Option (List RawPoint)
  pvStats : Option (List RawPoint)
deriving DecidableEq

/-- Result of `res.json()`: a parsed body, or the rejection message of a
malformed-JSON body. -/
inductive BodyResult where
  | malformed (msg : String)
  | parsed (body : RespBody)
deriving DecidableEq

/-- Outcome of one `fetch`: rejection with the engine's message (network or
connection failure), or a response with its HTTP status and body. -/
inductive FetchOutcome where
  | netFail (msg : String)
  | resp (status : ℕ) (body : BodyResult)
deriving DecidableEq

/-- `res.ok` of the fetch API: status in the range 200-299. -/
def respOk (status : ℕ) : Bool :=
  decide (200 ≤ status) && decide (status < 300)

/-- The error a scenario's processing can surface to the catch block:
a transport failure's message, the explicit status throw of App.tsx line 97
(which alone carries the scenario label), or a parse-class failure's
message (malformed JSON, or a missing stats array). -/
inductive RunError where
  | transport (msg : String)
  | statusError (label : String) (code : ℕ)
  | parseError (msg : String)
deriving DecidableEq

/-- The `err.message` the catch block of App.tsx lines 118-120 stores. -/
def errMessage : RunError → String
  | RunError.transport m => m
  | RunError.statusError l c => "Scenario " ++ l ++ " failed: " ++ toString c
  | RunError.parseError m => m

/-- The TypeError message V8 raises for `data.underlyingStats.map` or
`data.pvStats.map` when the member is absent. -/
def mapUndefinedMsg : String :=
  "Cannot read properties of undefined (reading 'map')"

/-- One scenario's fetch-and-parse of App.tsx lines 96-110 up to the raw
point lists: the status check throws before the body is read; `res.json()`
throws on malformed JSON; the `.map` calls throw when a stats array is
missing; field contents are never inspected. -/
def scenarioCall (o : FetchOutcome) (label : String) :
    Except RunError (List RawPoint × List RawPoint) :=
  match o with
  | FetchOutcome.netFail m => Except.error (RunError.transport m)
  | FetchOutcome.resp status body =>
    if respOk status = false then
      Except.error (RunError.statusError label status)
    else
      match body with
      | BodyResult.malformed m => Except.error (RunError.parseError m)
      | BodyResult.parsed b =>
        match b.underlyingStats with
        | none => Except.error (RunError.parseError mapUndefinedMsg)
        | some us =>
          match b.pvStats with
          | none => Except.error (RunError.parseError mapUndefinedMsg)
          | some ps => Except.ok (us, ps)

/-- One scenario's raw result, the client's output shape. -/
structure RawScenarioResult where
  underlyingStats : List RawPoint
  pvStats : List RawPoint
deriving DecidableEq

/-- The two combined scenario-tagged series the run publishes
(`setUnderlyingStats` / `setPvStats` of App.tsx lines 116-117). -/
structure SensitivityResult where
  underlying : List TaggedPoint
  presentValue : List TaggedPoint
deriving DecidableEq

/-- The accumulation of App.tsx lines 101-113 over an ordered list of
labelled raw results: tag every point of each result with its label and
concatenate in the order supplied. -/
def aggregate : List (String × RawScenarioResult) → SensitivityResult
  | [] => { underlying := [], presentValue := [] }
  | (l, r) :: rest =>
    let t := aggregate rest
    { underlying := r.underlyingStats.map (tagPoint l) ++ t.underlying,
      presentValue := r.pvStats.map (tagPoint l) ++ t.presentValue }

/-- Scenario `i` of the loop of App.tsx lines 81-114: call the client with
that scenario's would-be fetch outcome and its label. -/
def callAt (st : AppState) (o : Fin 3 → FetchOutcome) (i : Fin 3) :
    Except RunError RawScenarioResult :=
  match scenarioCall (o i) (scenarioLabelAt st.shiftPct i) with
  | Except.error e => Except.error e
  | Except.ok p => Except.ok { underlyingStats := p.1, pvStats := p.2 }

/-- The whole try block of App.tsx lines 62-117: the three scenario calls in
order, stopping at the first failure; on full success the aggregation of the
three labelled results in order. -/
def runLoop (st : AppState) (o : Fin 3 → FetchOutcome) :
    Except RunError SensitivityResult :=
  match callAt st o 0 with
  | Except.error e => Except.error e
  | Except.ok r0 =>
    match callAt st o 1 with
    | Except.error e => Except.error e
    | Except.ok r1 =>
      match callAt st o 2 with
      | Except.error e => Except.error e
      | Except.ok r2 =>
        Except.ok (aggregate
          [(scenarioLabelAt st.shiftPct 0, r0),
           (scenarioLabelAt st.shiftPct 1, r1),
           (scenarioLabelAt st.shiftPct 2, r2)])

/-- The view-facing state the run mutates: `loading`, `errorMsg`,
`underlyingStats`, `pvStats` (App.tsx lines 26-27 and 53-54). -/
structure ViewState where
  loading : Bool
  errorMsg : Option String
  underlyingStats : List TaggedPoint
  pvStats : List TaggedPoint
deriving DecidableEq

/-- The view state right after the four setters of App.tsx lines 57-60 run:
loading, no error, both series cleared — whatever was shown before. -/
def runStart (_v : ViewState) : ViewState :=
  { loading := true, errorMsg := none, underlyingStats := [], pvStats := [] }

/-- The view state when `runSensitivity` finishes, as a function of the
loop's outcome: on success the aggregated series are published with no
error; on failure the error message is stored and the series stay as
cleared at entry; `loading` is reset by the finally block either way. -/
def runFinish (st : AppState) (o : Fin 3 → FetchOutcome) : ViewState :=
  match runLoop st o with
  | Except.ok r =>
    { loading := false, errorMsg := none,
      underlyingStats := r.underlying, pvStats := r.presentValue }
  | Except.error e =>
    { loading := false, errorMsg := some (errMessage e),
      underlyingStats := [], pvStats := [] }

/-- A completed `runSensitivity` invocation: the prior view state is
overwritten at entry (`runStart`) and the final state depends only on the
parameters and the fetch outcomes. -/
def runSensitivity (_v : ViewState) (st : AppState) (o : Fin 3 → FetchOutcome) : ViewState :=
  runFinish st o

/-- How many of the three fetches a run actually issues: fail-fast stops
after the first failing call. -/
def issuedCount (st : AppState) (o : Fin 3 → FetchOutcome) : ℕ :=
  if (callAt st o 0).isOk = false then 1
  else if (callAt st o 1).isOk = false then 2
  else 3

/-- The URLs a run actually fetches, in order. -/
def issuedUrls (apiBase : String) (st : AppState) (o : Fin 3 → FetchOutcome) : List String :=
  (runUrls apiBase st).take (issuedCount st o)

/-- A click on the Run Sensitivity button (App.tsx lines 329-339): the
button is rendered with `disabled={loading}`, so a click while a run is in
flight does nothing and issues no request; otherwise it starts
`runSensitivity`.  Returns the new view state and the list of requests the
click caused. -/
def clickRun (v : ViewState) (apiBase : String) (st : AppState)
    (o : Fin 3 → FetchOutcome) : ViewState × List String :=
  if v.loading then (v, [])
  else (runSensitivity v st o, issuedUrls apiBase st o)

/-- Whether the character list `needle` occurs as a prefix of `hay`. -/
def prefixChars : List Char → List Char → Bool
  | [], _ => true
  | _ :: _, [] => false
  | a :: as, b :: bs => a == b && prefixChars as bs

/-- Whether `needle` occurs contiguously anywhere in `hay`. -/
def containsChars (hay needle : List Char) : Bool :=
  match hay with
  | [] => needle.isEmpty
  | _ :: rest => prefixChars needle hay || containsChars rest needle

/-- Whether string `sub` occurs in string `s` (structural, so it evaluates
by kernel reduction). -/
def mentions (s sub : String) : Bool :=
  containsChars s.data sub.data

/-- The characters after the first dot of a character list, `none` when
there is no dot. -/
def digitsAfterDot : List Char → Option (List Char)
  | [] => none
  | c :: rest => if c = '.' then some rest else digitsAfterDot rest

/-- Whether a serialized value has fixed 4-decimal form: a dot followed by
exactly four characters. -/
def hasFixed4 (s : String) : Bool :=
  match digitsAfterDot s.data with
  | none => false
  | some fr => fr.length == 4

/-- The default state switched to the OU model, other fields untouched. -/
def ouDefaultState : AppState :=
  { defaultState with modelType := ModelType.ou }

/-- The state of §8's request-shaping example: OU model with the default
base parameters `{spot: 1.10, kappa: 3.0, theta: 1.10, sigma: 0.12}`,
shock target volatility, magnitude 10. -/
def ouVolState : AppState :=
  { defaultState with
      modelType := ModelType.ou, shockParam := ShockParam.vol, shiftPct := 10 }

/-- A fetch outcome whose response is well-formed: status 200 and both
stats arrays present. -/
def okOutcome : FetchOutcome :=
  FetchOutcome.resp 200 (BodyResult.parsed
    { underlyingStats := some [{ time := JsValue.num 0, mean := JsValue.num 1,
                                 p5 := JsValue.num 0, p95 := JsValue.num 2 }],
      pvStats := some [] })

/-- Outcomes where the first scenario's call succeeds and the second is a
network failure (the browser's fetch rejection message). -/
def failMidOutcomes : Fin 3 → FetchOutcome :=
  fun i => if i = 1 then FetchOutcome.netFail "Failed to fetch" else okOutcome

/-- A stats point whose `time` field is a string, not a number. -/
def nonNumericPoint : RawPoint :=
  { time := JsValue.str "NaN", mean := JsValue.num 1,
    p5 := JsValue.num 0, p95 := JsValue.num 2 }

/-- A response body with both arrays present but a non-numeric field. -/
def nonNumericBody : RespBody :=
  { underlyingStats := some [nonNumericPoint], pvStats := some [] }

/-- C1: for every magnitude in {10, 20, 50} the planning step produces
exactly 3 scenarios in the fixed order Down, Base, Up, with shift factors
`[1 - m/100, 1, 1 + m/100]` and labels "Down -{m}%", "Base 0%", "Up +{m}%",
as a pure function of the magnitude alone; at the three allowed magnitudes
the labels evaluate to the concrete strings. -/
theorem scenario_planner_plan (m : ℕ) (_h : m ∈ [10, 20, 50]) :
    (shiftFactors m).length = 3 ∧
    (scenarioLabels m).length = 3 ∧
    shiftFactors m = [1 - (m : ℚ)/100, 1, 1 + (m : ℚ)/100] ∧
    scenarioLabels m = ["Down -" ++ toString m ++ "%", "Base 0%", "Up +" ++ toString m ++ "%"] ∧
    scenarioLabels 10 = ["Down -10%", "Base 0%", "Up +10%"] ∧
    scenarioLabels 20 = ["Down -20%", "Base 0%", "Up +20%"] ∧
    scenarioLabels 50 = ["Down -50%", "Base 0%", "Up +50%"] := by
  refine ⟨rfl, rfl, rfl, rfl, ?_, ?_, ?_⟩ <;> with_unfolding_all decide

/-- Witness for C1 at magnitude 10. -/
theorem scenario_planner_plan_witness :
    (shiftFactors 10).length = 3 ∧
    (scenarioLabels 10).length = 3 ∧
    shiftFactors 10 = [1 - (10 : ℚ)/100, 1, 1 + (10 : ℚ)/100] ∧
    scenarioLabels 10 = ["Down -" ++ toString 10 ++ "%", "Base 0%", "Up +" ++ toString 10 ++ "%"] ∧
    scenarioLabels 10 = ["Down -10%", "Base 0%", "Up +10%"] ∧
    scenarioLabels 20 = ["Down -20%", "Base 0%", "Up +20%"] ∧
    scenarioLabels 50 = ["Down -50%", "Base 0%", "Up +50%"] :=
  scenario_planner_plan 10 (by decide)

/-- C2 counterexample: in the Base scenario (the second of the three, shift
factor 1) no numeric field of the effective parameters differs from the
base — zero fields differ, not exactly one, already at the default GBM
state with shock target Spot. -/
theorem effective_params_counterexample :
    defaultState.shockParam = ShockParam.spot ∧
    shiftFactorAt 20 1 = 1 ∧
    countDiff (effectiveFields defaultState (shiftFactorAt 20 1)) (baseFields defaultState) = 0 := by
  refine ⟨rfl, ?_, ?_⟩ <;> with_unfolding_all decide

/-- C2 amended: for every state and scenario factor, the targeted scalar of
the effective parameters equals the base value times the factor and every
other numeric field (kappa and theta for OU included, and the volatility
when spot is shocked) equals the base exactly; hence at most one field
differs, none differ in the Base scenario (factor 1), and exactly one
differs in the Down and Up scenarios whenever the targeted base value is
nonzero.  At magnitude 20, target Spot, base spot 1.10 the three effective
spots are 0.88, 1.10, 1.32 and the GBM sigma stays 0.15 in all three. -/
theorem effective_params_amended (st : AppState) (factor : ℚ) :
    (effectiveFields st factor).map Prod.fst = (baseFields st).map Prod.fst ∧
    (st.shockParam = ShockParam.spot →
      effSpot st factor = baseSpot st * factor ∧ effVol st factor = baseVol st) ∧
    (st.shockParam = ShockParam.vol →
      effVol st factor = baseVol st * factor ∧ effSpot st factor = baseSpot st) ∧
    (st.modelType = ModelType.ou →
      ("kappa", st.ouKappa) ∈ effectiveFields st factor ∧
      ("theta", st.ouTheta) ∈ effectiveFields st factor) ∧
    countDiff (effectiveFields st factor) (baseFields st) ≤ 1 ∧
    (factor = 1 → countDiff (effectiveFields st factor) (baseFields st) = 0) ∧
    (factor ≠ 1 → st.shockParam = ShockParam.spot → baseSpot st ≠ 0 →
      countDiff (effectiveFields st factor) (baseFields st) = 1) ∧
    (factor ≠ 1 → st.shockParam = ShockParam.vol → baseVol st ≠ 0 →
      countDiff (effectiveFields st factor) (baseFields st) = 1) ∧
    (shiftFactors 20).map (effSpot defaultState) = [88/100, 110/100, 132/100] ∧
    (shiftFactors 20).map (effVol defaultState) = [15/100, 15/100, 15/100] := by
  have hcd : countDiff (effectiveFields st factor) (baseFields st) =
      (if effSpot st factor = baseSpot st then 0 else 1) +
      (if effVol st factor = baseVol st then 0 else 1) := by
    cases h : st.modelType <;>
      simp [effectiveFields, baseFields, modelFields, h, countDiff]
  refine ⟨?_, ?_, ?_, ?_, ?_, ?_, ?_, ?_, ?_, ?_⟩
  · cases h : st.modelType <;> simp [effectiveFields, baseFields, modelFields, h]
  · intro h; simp [effSpot, effVol, h]
  · intro h; simp [effSpot, effVol, h]
  · intro h; cases hs : st.shockParam <;>
      simp [effectiveFields, modelFields, h]
  · rw [hcd]
    cases hs : st.shockParam
    · have : effVol st factor = baseVol st := by simp [effVol, hs]
      simp [this]
      split <;> omega
    · have : effSpot st factor = baseSpot st := by simp [effSpot, hs]
      simp [this]
      split <;> omega
  · intro h1
    rw [hcd]
    have h2 : effSpot st factor = baseSpot st := by
      cases hs : st.shockParam <;> simp [effSpot, hs, h1]
    have h3 : effVol st factor = baseVol st := by
      cases hs : st.shockParam <;> simp [effVol, hs, h1]
    simp [h2, h3]
  · intro hf hs hb
    rw [hcd]
    have h2 : effSpot st factor ≠ baseSpot st := by
      have hef : effSpot st factor = baseSpot st * factor := by simp [effSpot, hs]
      rw [hef]
      intro heq
      exact hf (mul_left_cancel₀ hb (heq.trans (mul_one _).symm))
    have h3 : effVol st factor = baseVol st := by simp [effVol, hs]
    simp [h2, h3]
  · intro hf hs hb
    rw [hcd]
    have h2 : effVol st factor ≠ baseVol st := by
      have hef : effVol st factor = baseVol st * factor := by simp [effVol, hs]
      rw [hef]
      intro heq
      exact hf (mul_left_cancel₀ hb (heq.trans (mul_one _).symm))
    have h3 : effSpot st factor = baseSpot st := by simp [effSpot, hs]
    simp [h2, h3]
  · with_unfolding_all decide
  · with_unfolding_all decide

/-- C3 counterexample: when the second scenario's call fails with a network
error, the run does end in the failed state with no published result, but
the single stored error is the raw fetch rejection message, which is not
annotated with the failing scenario's label "Base 0%" — only the explicit
non-2xx status throw carries the label. -/
theorem failfast_label_counterexample :
    (callAt defaultState failMidOutcomes 0).isOk = true ∧
    failMidOutcomes 1 = FetchOutcome.netFail "Failed to fetch" ∧
    scenarioLabelAt defaultState.shiftPct 1 = "Base 0%" ∧
    runSensitivity { loading := false, errorMsg := none,
                     underlyingStats := [], pvStats := [] } defaultState failMidOutcomes =
      { loading := false, errorMsg := some "Failed to fetch",
        underlyingStats := [], pvStats := [] } ∧
    mentions "Failed to fetch" "Base 0%" = false := by
  refine ⟨?_, ?_, ?_, ?_, ?_⟩ <;> with_unfolding_all decide

/-- C3 amended: entering a run clears any prior result and error; if any of
the 3 sequential scenario calls fails, the run ends failed with exactly the
one originating error's message and publishes nothing — results collected
from earlier successful scenarios are discarded, and the series stay as
cleared at run start; the aggregated result is published only when all 3
calls succeed, as an all-or-nothing replacement.  The stored error is
annotated with the failing scenario's label exactly when the failure is the
explicit non-2xx status throw. -/
theorem failfast_amended (v : ViewState) (st : AppState) (o : Fin 3 → FetchOutcome) :
    runStart v = { loading := true, errorMsg := none, underlyingStats := [], pvStats := [] } ∧
    (∀ e, runLoop st o = Except.error e →
      runSensitivity v st o =
        { loading := false, errorMsg := some (errMessage e),
          underlyingStats := [], pvStats := [] }) ∧
    (∀ r, runLoop st o = Except.ok r →
      runSensitivity v st o =
        { loading := false, errorMsg := none,
          underlyingStats := r.underlying, pvStats := r.presentValue }) ∧
    ((∃ i, (callAt st o i).isOk = false) → ∃ e, runLoop st o = Except.error e) ∧
    ((∀ i, (callAt st o i).isOk = true) →
      ∃ r0 r1 r2, callAt st o 0 = Except.ok r0 ∧ callAt st o 1 = Except.ok r1 ∧
        callAt st o 2 = Except.ok r2 ∧
        runLoop st o = Except.ok (aggregate
          [(scenarioLabelAt st.shiftPct 0, r0),
           (scenarioLabelAt st.shiftPct 1, r1),
           (scenarioLabelAt st.shiftPct 2, r2)])) ∧
    (∀ i l c,
      scenarioCall (o i) (scenarioLabelAt st.shiftPct i) = Except.error (RunError.statusError l c) →
      l = scenarioLabelAt st.shiftPct i ∧
      errMessage (RunError.statusError l c) =
        "Scenario " ++ scenarioLabelAt st.shiftPct i ++ " failed: " ++ toString c) := by
  refine ⟨rfl, ?_, ?_, ?_, ?_, ?_⟩
  · intro e h; simp [runSensitivity, runFinish, h]
  · intro r h; simp [runSensitivity, runFinish, h]
  · rintro ⟨i, hi⟩
    cases c0 : callAt st o 0 with
    | error e => exact ⟨e, by simp [runLoop, c0]⟩
    | ok r0 =>
      cases c1 : callAt st o 1 with
      | error e => exact ⟨e, by simp [runLoop, c0, c1]⟩
      | ok r1 =>
        cases c2 : callAt st o 2 with
        | error e => exact ⟨e, by simp [runLoop, c0, c1, c2]⟩
        | ok r2 =>
          exfalso
          fin_cases i <;> simp_all [Except.isOk, Except.toBool]
  · intro h
    cases c0 : callAt st o 0 with
    | error e => have := h 0; rw [c0] at this; simp [Except.isOk, Except.toBool] at this
    | ok r0 =>
      cases c1 : callAt st o 1 with
      | error e => have := h 1; rw [c1] at this; simp [Except.isOk, Except.toBool] at this
      | ok r1 =>
        cases c2 : callAt st o 2 with
        | error e => have := h 2; rw [c2] at this; simp [Except.isOk, Except.toBool] at this
        | ok r2 =>
          exact ⟨r0, r1, r2, rfl, rfl, rfl, by simp [runLoop, c0, c1, c2]⟩
  · intro i l c h
    cases ho : o i with
    | netFail m => rw [ho] at h; simp [scenarioCall] at h
    | resp status body =>
      rw [ho] at h
      by_cases hok : respOk status = false
      · simp [scenarioCall, hok] at h
        exact ⟨h.1.symm, by rw [h.1]; rfl⟩
      · cases body with
        | malformed m => simp [scenarioCall, hok] at h
        | parsed b =>
          cases hu : b.underlyingStats <;> cases hp : b.pvStats <;>
            simp [scenarioCall, hok, hu, hp] at h

/-- C4 counterexample: already in the very first (Base) OU request at the
default parameters, the `kappa` component is serialized as "3" by default
interpolation — no fixed 4-decimal form, and not the "3.0000" that
`toFixed(4)` would give. -/
theorem fourdecimal_counterexample :
    ("kappa", "3") ∈ queryComponents ouDefaultState 1 ∧
    hasFixed4 "3" = false ∧
    toFixed4 ouDefaultState.ouKappa = "3.0000" ∧
    ("kappa", toFixed4 ouDefaultState.ouKappa) ∉ queryComponents ouDefaultState 1 := by
  refine ⟨?_, ?_, ?_, ?_⟩ <;> with_unfolding_all decide

/-- C4 amended: in every request only the spot and the volatility
(`sigma_gbm` / `sigma_ou`) are serialized through `toFixed(4)`; maturity,
r_dom, r_for and (for OU) kappa and theta are serialized through default
JavaScript number interpolation, which drops trailing zeros and need not
produce 4 decimals. -/
theorem fourdecimal_amended (st : AppState) (factor : ℚ) :
    ("spot", toFixed4 (effSpot st factor)) ∈ queryComponents st factor ∧
    (st.modelType = ModelType.gbm →
      ("sigma_gbm", toFixed4 (effVol st factor)) ∈ queryComponents st factor) ∧
    (st.modelType = ModelType.ou →
      ("sigma_ou", toFixed4 (effVol st factor)) ∈ queryComponents st factor ∧
      ("kappa", jsNumToString st.ouKappa) ∈ queryComponents st factor ∧
      ("theta", jsNumToString st.ouTheta) ∈ queryComponents st factor) ∧
    ("maturity", jsNumToString st.maturity) ∈ queryComponents st factor ∧
    ("r_dom", jsNumToString st.r_dom) ∈ queryComponents st factor ∧
    ("r_for", jsNumToString st.r_for) ∈ queryComponents st factor := by
  refine ⟨?_, ?_, ?_, ?_, ?_, ?_⟩
  · simp [queryComponents]
  · intro h; simp [queryComponents, h]
  · intro h; simp [queryComponents, h]
  · simp [queryComponents]
  · simp [queryComponents]
  · simp [queryComponents]

/-- C5 counterexample: in the Up scenario of the OU request-shaping example
the `theta` component is "theta=1.1" (default interpolation of 1.10), not
the "theta=1.10" the claim names. -/
theorem request_theta_counterexample :
    ("theta", "1.10") ∉ queryComponents ouVolState (shiftFactorAt 10 2) ∧
    ("theta", "1.1") ∈ queryComponents ouVolState (shiftFactorAt 10 2) := by
  refine ⟨?_, ?_⟩ <;> with_unfolding_all decide

/-- C5 amended: for model `ou` with base `{spot: 1.10, kappa: 3.0,
theta: 1.10, sigma: 0.12}`, shock target Vol and magnitude 10, the Up
scenario's request carries the components `sigma_ou=0.1320`, `kappa=3`,
`theta=1.1` and `spot=1.1000` (spot unshocked). -/
theorem request_shaping_ou_example :
    ouVolState.modelType = ModelType.ou ∧
    ouVolState.ouSpot = 110/100 ∧ ouVolState.ouKappa = 3 ∧
    ouVolState.ouTheta = 110/100 ∧ ouVolState.ouSigma = 12/100 ∧
    ouVolState.shockParam = ShockParam.vol ∧ ouVolState.shiftPct = 10 ∧
    shiftFactorAt 10 2 = 1 + (10 : ℚ)/100 ∧
    ("sigma_ou", "0.1320") ∈ queryComponents ouVolState (shiftFactorAt 10 2) ∧
    ("kappa", "3") ∈ queryComponents ouVolState (shiftFactorAt 10 2) ∧
    ("theta", "1.1") ∈ queryComponents ouVolState (shiftFactorAt 10 2) ∧
    ("spot", "1.1000") ∈ queryComponents ouVolState (shiftFactorAt 10 2) := by
  refine ⟨rfl, ?_, ?_, ?_, ?_, rfl, rfl, ?_, ?_, ?_, ?_, ?_⟩ <;> with_unfolding_all decide

/-- C6 counterexample: a 200 response whose two arrays are present but
whose `time` field is the string "NaN" is accepted — the call succeeds and
the point is passed through untouched, where the claim demands a
ParseError for any non-numeric time/mean/p5/p95 field. -/
theorem parse_leniency_counterexample :
    isNumeric nonNumericPoint.time = false ∧
    respOk 200 = true ∧
    (scenarioCall (FetchOutcome.resp 200 (BodyResult.parsed nonNumericBody)) "Base 0%").toOption =
      some ([nonNumericPoint], []) := by
  refine ⟨?_, ?_, ?_⟩ <;> with_unfolding_all decide

/-- C6 amended: the per-scenario call fails with a transport error carrying
the fetch rejection message on network failure, with a status error
carrying the status code whenever the response status is outside 200-299,
and with a parse error when the body is malformed JSON or either of the two
stats arrays is missing; when the status is a success and both arrays are
present it succeeds with the raw arrays — the time/mean/p5/p95 field
contents are never validated. -/
theorem client_errors_amended (o : FetchOutcome) (lbl : String) :
    (∀ m, o = FetchOutcome.netFail m →
      scenarioCall o lbl = Except.error (RunError.transport m)) ∧
    (∀ code b, o = FetchOutcome.resp code b → respOk code = false →
      scenarioCall o lbl = Except.error (RunError.statusError lbl code)) ∧
    (∀ code m, o = FetchOutcome.resp code (BodyResult.malformed m) → respOk code = true →
      scenarioCall o lbl = Except.error (RunError.parseError m)) ∧
    (∀ code b, o = FetchOutcome.resp code (BodyResult.parsed b) → respOk code = true →
      (b.underlyingStats = none ∨ b.pvStats = none →
        scenarioCall o lbl = Except.error (RunError.parseError mapUndefinedMsg)) ∧
      (∀ us ps, b.underlyingStats = some us → b.pvStats = some ps →
        scenarioCall o lbl = Except.ok (us, ps))) := by
  refine ⟨?_, ?_, ?_, ?_⟩
  · intro m h; subst h; rfl
  · intro code b h hok; subst h; simp [scenarioCall, hok]
  · intro code m h hok; subst h; simp [scenarioCall, hok]
  · intro code b h hok; subst h
    constructor
    · rintro (hu | hp)
      · simp [scenarioCall, hok, hu]
      · cases hu : b.underlyingStats <;> simp [scenarioCall, hok, hu, hp]
    · intro us ps hu hp; simp [scenarioCall, hok, hu, hp]

/-- C7: clicking Run Sensitivity while a run is already loading is ignored
— the button is disabled — so the view state is unchanged and no request is
issued; a second batch of scenario calls is never spawned. -/
theorem no_concurrent_runs (v : ViewState) (apiBase : String) (st : AppState)
    (o : Fin 3 → FetchOutcome) (h : v.loading = true) :
    clickRun v apiBase st o = (v, []) := by
  simp [clickRun, h]

/-- Witness for C7 at a concrete loading view state. -/
theorem no_concurrent_runs_witness :
    clickRun { loading := true, errorMsg := none, underlyingStats := [], pvStats := [] }
        "http://localhost:5053" defaultState (fun _ => FetchOutcome.netFail "x") =
      ({ loading := true, errorMsg := none, underlyingStats := [], pvStats := [] }, []) :=
  no_concurrent_runs _ _ _ _ rfl

/-- C8: aggregation is order-preserving and total — the empty input yields
empty series; each output series is the concatenation of the per-scenario
tagged point lists in exactly the order the pairs were supplied, with
intra-scenario order preserved; output length is the sum of input lengths;
and every output point's scenario field is its source pair's label. -/
theorem aggregate_order_preserving (ps : List (String × RawScenarioResult)) :
    aggregate [] = { underlying := [], presentValue := [] } ∧
    (aggregate ps).underlying =
      (ps.map (fun q => q.2.underlyingStats.map (tagPoint q.1))).flatten ∧
    (aggregate ps).presentValue =
      (ps.map (fun q => q.2.pvStats.map (tagPoint q.1))).flatten ∧
    (aggregate ps).underlying.length = (ps.map (fun q => q.2.underlyingStats.length)).sum ∧
    (aggregate ps).presentValue.length = (ps.map (fun q => q.2.pvStats.length)).sum ∧
    (∀ t, t ∈ (aggregate ps).underlying →
      ∃ q, q ∈ ps ∧ t.scenario = q.1 ∧ ∃ p, p ∈ q.2.underlyingStats ∧ t = tagPoint q.1 p) ∧
    (∀ t, t ∈ (aggregate ps).presentValue →
      ∃ q, q ∈ ps ∧ t.scenario = q.1 ∧ ∃ p, p ∈ q.2.pvStats ∧ t = tagPoint q.1 p) := by
  refine ⟨rfl, ?_, ?_, ?_, ?_, ?_, ?_⟩
  · induction ps with
    | nil => rfl
    | cons q rest ih => simp [aggregate, ih]
  · induction ps with
    | nil => rfl
    | cons q rest ih => simp [aggregate, ih]
  · induction ps with
    | nil => rfl
    | cons q rest ih => simp [aggregate, ih]
  · induction ps with
    | nil => rfl
    | cons q rest ih => simp [aggregate, ih]
  · induction ps with
    | nil => intro t ht; simp [aggregate] at ht
    | cons q rest ih =>
      intro t ht
      rcases List.mem_append.1 ht with hl | hr
      · rcases List.mem_map.1 hl with ⟨p, hp, hpt⟩
        exact ⟨q, List.mem_cons_self q rest, by rw [← hpt]; rfl, p, hp, hpt.symm⟩
      · rcases ih t hr with ⟨q', hq', hsc, p, hp, hpt⟩
        exact ⟨q', List.mem_cons_of_mem q hq', hsc, p, hp, hpt⟩
  · induction ps with
    | nil => intro t ht; simp [aggregate] at ht
    | cons q rest ih =>
      intro t ht
      rcases List.mem_append.1 ht with hl | hr
      · rcases List.mem_map.1 hl with ⟨p, hp, hpt⟩
        exact ⟨q, List.mem_cons_self q rest, by rw [← hpt]; rfl, p, hp, hpt.symm⟩
      · rcases ih t hr with ⟨q', hq', hsc, p, hp, hpt⟩
        exact ⟨q', List.mem_cons_of_mem q hq', hsc, p, hp, hpt⟩

/-- C9: every request of every run carries the fixed components `paths=200`
and `steps=200`, for every model variant, shock parameter, scenario factor
and numeric input — the path and step counts are constants of the code, not
parameters of the run. -/
theorem fixed_paths_steps (st : AppState) (factor : ℚ) :
    ("paths", "200") ∈ queryComponents st factor ∧
    ("steps", "200") ∈ queryComponents st factor ∧
    (runUrls "http://localhost:5053" st).length = 3 := by
  refine ⟨?_, ?_, rfl⟩ <;> simp [queryComponents]

/-- C10: the GBM drift parameter mu never influences any simulation
request — for any two values of mu with every other input equal, the query
components of every scenario and all three request URLs of a run are
identical: mu is read from the form but serialized for neither model. -/
theorem mu_noninterference (apiBase : String) (st : AppState) (mu mu' : ℚ) :
    runUrls apiBase { st with gbmMu := mu } = runUrls apiBase { st with gbmMu := mu' } ∧
    ∀ factor, queryComponents { st with gbmMu := mu } factor =
      queryComponents { st with gbmMu := mu' } factor :=
  ⟨rfl, fun _ => rfl⟩
